import Mathlib

set_option maxHeartbeats 2000000

/-!
Verification development for the failing-template validator of the
helm-unittest validation engine.

The validator code (struct FailedTemplateValidator with its methods
failInfo, validateManifests, validateErrorPattern, validateErrorMessage and
Validate) is embedded from the source file faithfully.  Shared helpers of
the validators package (splitInfof, setFailFormat, determineSuccess,
errorFormat, the validate context and the manifest type) are not part of
the sampled sources; they are modelled from the spec, each with a doc
comment saying so.  The Go standard regexp library is modelled by a small
regular-expression engine with Brzozowski derivatives and a parser for the
syntax fragment the development needs; its MatchString has the unanchored
(substring search) semantics of the Go library.
-/

/-- A dynamically typed Go value as it flows into the validators: the
interface argument called actual is nil, a string, or some other non-string
value, on which a string type assertion would panic. -/
inductive GoValue where
  | nil
  | str (s : String)
  | other
deriving DecidableEq, Repr

/-- Regular expressions, the abstract syntax the modelled regexp library
compiles to.  The any constructor is the dot of the Go syntax, matching
every character except a newline. -/
inductive Regex where
  | void
  | eps
  | char (c : Char)
  | any
  | concat (r1 r2 : Regex)
  | alt (r1 r2 : Regex)
  | star (r : Regex)
deriving DecidableEq, Repr

/-- Whether a regular expression accepts the empty word. -/
def Regex.nullable : Regex → Bool
  | .void => false
  | .eps => true
  | .char _ => false
  | .any => false
  | .concat r1 r2 => r1.nullable && r2.nullable
  | .alt r1 r2 => r1.nullable || r2.nullable
  | .star _ => true

/-- Brzozowski derivative of a regular expression by one character. -/
def Regex.deriv : Regex → Char → Regex
  | .void, _ => .void
  | .eps, _ => .void
  | .char c, a => if a = c then .eps else .void
  | .any, a => if a = Char.ofNat 10 then .void else .eps
  | .concat r1 r2, a =>
      if r1.nullable then .alt (.concat (r1.deriv a) r2) (r2.deriv a)
      else .concat (r1.deriv a) r2
  | .alt r1 r2, a => .alt (r1.deriv a) (r2.deriv a)
  | .star r, a => .concat (r.deriv a) (.star r)

/-- Anchored matching: the expression matches the whole character list. -/
def matchFull (r : Regex) (cs : List Char) : Bool :=
  (cs.foldl Regex.deriv r).nullable

/-- Unanchored matching on a character list: some contiguous sublist is
matched in full.  This is the semantics of MatchString in the Go regexp
library, which reports whether the string contains any match. -/
def matchSub (r : Regex) (cs : List Char) : Bool :=
  cs.tails.any fun suf => suf.inits.any fun pre => matchFull r pre

/-- MatchString of the modelled regexp library: unanchored search over the
string. -/
def Regex.MatchString (r : Regex) (s : String) : Bool :=
  matchSub r s.data

def errMissingRepArg : String := "missing argument to repetition operator"

def errMissingParen : String := "missing closing parenthesis"

def errUnexpectedParen : String := "unexpected closing parenthesis"

def errTrailingBackslash : String := "trailing backslash at end of expression"

def errTooComplex : String := "expression too complex"

def errUnexpectedEnd : String := "unexpected end of expression"

/-- Absorb the postfix repetition operators star, plus and question mark
onto an already parsed atom. -/
def applyReps : Regex → List Char → Regex × List Char
  | r, '*' :: rest => applyReps (.star r) rest
  | r, '+' :: rest => applyReps (.concat r (.star r)) rest
  | r, '?' :: rest => applyReps (.alt r .eps) rest
  | r, rest => (r, rest)

mutual

/-- Parse an alternation, the top level of the modelled regexp syntax. -/
def parseAlt : Nat → List Char → Except String (Regex × List Char)
  | 0, _ => .error errTooComplex
  | fuel + 1, cs =>
    match parseConcat fuel cs with
    | .error e => .error e
    | .ok (r1, rest) =>
      match rest with
      | '|' :: rest2 =>
        match parseAlt fuel rest2 with
        | .error e => .error e
        | .ok (r2, rest3) => .ok (.alt r1 r2, rest3)
      | _ => .ok (r1, rest)

/-- Parse a concatenation of repeated atoms. -/
def parseConcat : Nat → List Char → Except String (Regex × List Char)
  | 0, _ => .error errTooComplex
  | fuel + 1, cs =>
    match cs with
    | [] => .ok (.eps, [])
    | ')' :: _ => .ok (.eps, cs)
    | '|' :: _ => .ok (.eps, cs)
    | _ =>
      match parseRep fuel cs with
      | .error e => .error e
      | .ok (r1, rest) =>
        match parseConcat fuel rest with
        | .error e => .error e
        | .ok (r2, rest2) => .ok (.concat r1 r2, rest2)

/-- Parse one atom with its repetition operators. -/
def parseRep : Nat → List Char → Except String (Regex × List Char)
  | 0, _ => .error errTooComplex
  | fuel + 1, cs =>
    match parseAtom fuel cs with
    | .error e => .error e
    | .ok (r, rest) => .ok (applyReps r rest)

/-- Parse one atom: a literal, a dot, an escape or a parenthesised group.
A repetition operator with no operand is a parse error, as in the Go
library. -/
def parseAtom : Nat → List Char → Except String (Regex × List Char)
  | 0, _ => .error errTooComplex
  | fuel + 1, cs =>
    match cs with
    | [] => .error errUnexpectedEnd
    | '(' :: rest =>
      match parseAlt fuel rest with
      | .error e => .error e
      | .ok (r, rest2) =>
        match rest2 with
        | ')' :: rest3 => .ok (r, rest3)
        | _ => .error errMissingParen
    | '*' :: _ => .error errMissingRepArg
    | '+' :: _ => .error errMissingRepArg
    | '?' :: _ => .error errMissingRepArg
    | '.' :: rest => .ok (.any, rest)
    | '\\' :: c :: rest => .ok (.char c, rest)
    | ['\\'] => .error errTrailingBackslash
    | c :: rest => .ok (.char c, rest)

end

/-- Compile of the modelled regexp library: parse the whole pattern, fail
on leftover input, which can only be an unmatched closing parenthesis. -/
def RegexCompile (pattern : String) : Except String Regex :=
  match parseAlt (pattern.length * 4 + 16) pattern.data with
  | .error e => .error e
  | .ok (r, []) => .ok r
  | .ok (_, _ :: _) => .error errUnexpectedParen

def nilText : String := "<nil>"

def otherText : String := "<non-string value>"

/-- Modelled from the spec: the Sprintf rendering of the actual value into
the diagnostic; a string renders as itself. -/
def goSprintf : GoValue → String
  | .nil => nilText
  | .str s => s
  | .other => otherText

/-- cmp.Or of the Go standard library on strings: the first argument when
it is non-empty, otherwise the second. -/
def cmpOr (a b : String) : String :=
  if a ≠ "" then a else b

def sepText : String := " | "

def openIdxText : String := " [manifest "

def closeIdxText : String := "] "

/-- Modelled from the spec: splitInfof renders a failure-format template
together with the manifest index, the actual index and the replacement
values into human-readable diagnostic lines; the manifest index is part of
the rendered line so that a per-manifest failure is tagged with the index
of the originating manifest. -/
def splitInfof (format : String) (manifestIndex actualIndex : Int) (replacements : List String) : List String :=
  [format ++ openIdxText ++ toString manifestIndex ++ sepText ++ toString actualIndex
    ++ closeIdxText ++ sepText.intercalate replacements]

def expectedText : String := "Expected"

def notText : String := " NOT"

def actualSuffixText : String := ", got actual"

/-- Modelled from the spec: setFailFormat builds the failure-format
template from the negation flag, array and actual-content markers and the
custom comparison message. -/
def setFailFormat (not isArray withActual diff : Bool) (customMessage : String) : String :=
  expectedText ++ (if not then notText else "") ++ customMessage
    ++ (if isArray || diff then "" else "")
    ++ (if withActual then actualSuffixText else "")

/-- Modelled from the spec: the shared format template for configuration
and compile errors reported as diagnostics. -/
def errorFormat : String := "Error:"

/-- Modelled from the spec: the index-order, left-fold, monotonic-failure
aggregation of per-manifest outcomes; overall success starts true and any
single failure keeps it false for the remainder of the evaluation. -/
def determineSuccess (idx : Nat) (validateSuccess currentSuccess : Bool) : Bool :=
  validateSuccess && currentSuccess

/-- Modelled from the spec: a rendered manifest as the failing-template
validator sees it; the validator only reads the raw field of the manifest
map, which is nil when the key is absent and a string otherwise, and the
embedding also allows a non-string value to expose the type assertion. -/
structure K8sManifest where
  raw : GoValue
deriving DecidableEq, Repr

/-- Modelled from the spec: per-assertion execution state with the
negation, fail-fast and strict flags, the manifest collection and an
optional render error, carried as its message string. -/
structure ValidateContext where
  manifests : List K8sManifest
  Negative : Bool
  FailFast : Bool
  Strict : Bool
  RenderError : Option String
deriving DecidableEq, Repr

/-- Modelled from the spec: the context exposes its manifest collection to
the validator. -/
def ValidateContext.getManifests (c : ValidateContext) : List K8sManifest :=
  c.manifests

/-- The failing-template validator with its two mutually exclusive
parameters, embedded from the source. -/
structure FailedTemplateValidator where
  ErrorMessage : String
  ErrorPattern : String
deriving DecidableEq, Repr

def FailedTemplateValidator.zero : FailedTemplateValidator :=
  { ErrorMessage := "", ErrorPattern := "" }

def toEqualText : String := " to equal"

def toMatchText : String := " to match"

/-- failInfo of the source: build the diagnostic lines for one failed
comparison, choosing the to-match wording when a pattern is configured and
including the actual content only in the non-negated format. -/
def FailedTemplateValidator.failInfo (a : FailedTemplateValidator) (actual : GoValue)
    (manifestIndex actualIndex : Int) (not : Bool) : List String :=
  let customMessage := if a.ErrorPattern ≠ "" then toMatchText else toEqualText
  let message := cmpOr a.ErrorMessage a.ErrorPattern
  if not then
    splitInfof (setFailFormat not false false false customMessage) manifestIndex actualIndex
      [message]
  else
    splitInfof (setFailFormat not false true false customMessage) manifestIndex actualIndex
      [message, goSprintf actual]

/-- The Go conjunction actual != nil && p.MatchString(actual.(string)):
none models the panic of the string type assertion on a non-nil non-string
value; the nil check short-circuits, so a nil actual yields false without
evaluating the assertion. -/
def goNilAndMatch (actual : GoValue) (p : Regex) : Option Bool :=
  match actual with
  | .nil => some false
  | .str s => some (p.MatchString s)
  | .other => none

/-- The Go conjunction actual != nil && reflect.DeepEqual(msg, actual.(string)),
with the same short-circuit and panic modelling. -/
def goNilAndEq (msg : String) (actual : GoValue) : Option Bool :=
  match actual with
  | .nil => some false
  | .str s => some (msg = s)
  | .other => none

/-- validateErrorPattern of the source: compile the pattern, report a
compile error as a failure diagnostic, otherwise compare the match outcome
against the negation flag.  The none result models a panic of the type
assertion. -/
def FailedTemplateValidator.validateErrorPattern (a : FailedTemplateValidator) (actual : GoValue)
    (manifestIndex actualIndex : Int) (context : ValidateContext) :
    Option (Bool × List String) :=
  match RegexCompile a.ErrorPattern with
  | .error err => some (false, splitInfof errorFormat (-1) (-1) [err])
  | .ok p =>
    match goNilAndMatch actual p with
    | none => none
    | some b =>
      if b = context.Negative then
        some (false, a.failInfo actual manifestIndex actualIndex context.Negative)
      else
        some (true, [])

/-- validateErrorMessage of the source: compare the exact-equality outcome
against the negation flag.  The none result models a panic of the type
assertion. -/
def FailedTemplateValidator.validateErrorMessage (a : FailedTemplateValidator) (actual : GoValue)
    (manifestIndex actualIndex : Int) (context : ValidateContext) :
    Option (Bool × List String) :=
  match goNilAndEq a.ErrorMessage actual with
  | none => none
  | some b =>
    if b = context.Negative then
      some (false, a.failInfo actual manifestIndex actualIndex context.Negative)
    else
      some (true, [])

/-- The manifest loop of validateManifests, embedded as a recursion that
carries the running index, the running success flag and the accumulated
diagnostics.  A zero validator in a non-negated context skips the manifest;
otherwise the per-manifest check runs, its diagnostics are appended, the
success flag is folded with determineSuccess and a fail-fast context stops
at the first manifest that turned the flag false. -/
def validateManifestsLoop (a : FailedTemplateValidator) (context : ValidateContext) :
    Nat → List K8sManifest → Bool → List String → Option (Bool × List String)
  | _, [], validateSuccess, validateErrors => some (validateSuccess, validateErrors)
  | idx, manifest :: rest, validateSuccess, validateErrors =>
    if a = FailedTemplateValidator.zero ∧ context.Negative = false then
      validateManifestsLoop a context (idx + 1) rest validateSuccess validateErrors
    else
      match
        (if a.ErrorPattern ≠ "" then
          a.validateErrorPattern manifest.raw (Int.ofNat idx) (-1) context
        else if a.ErrorMessage ≠ "" then
          a.validateErrorMessage manifest.raw (Int.ofNat idx) (-1) context
        else
          some (true, [])) with
      | none => none
      | some (currentSuccess, validateSingleErrors) =>
        let validateErrors2 := validateErrors ++ validateSingleErrors
        let validateSuccess2 := determineSuccess idx validateSuccess currentSuccess
        if validateSuccess2 = false ∧ context.FailFast = true then
          some (validateSuccess2, validateErrors2)
        else
          validateManifestsLoop a context (idx + 1) rest validateSuccess2 validateErrors2

def noFailedDocText : String := "No failed document"

/-- validateManifests of the source: run the loop from a true success flag
and no diagnostics, then apply the empty-collection special case, which in
a non-negated context overrides the result with a failure carrying the
fixed no-failed-document diagnostic. -/
def FailedTemplateValidator.validateManifests (a : FailedTemplateValidator)
    (manifests : List K8sManifest) (context : ValidateContext) :
    Option (Bool × List String) :=
  match validateManifestsLoop a context 0 manifests true [] with
  | none => none
  | some (validateSuccess, validateErrors) =>
    if manifests.length = 0 ∧ context.Negative = false then
      some (false, validateErrors ++ a.failInfo (.str noFailedDocText) (-1) (-1) context.Negative)
    else
      some (validateSuccess, validateErrors)

def bothSetText : String :=
  "single attribute errorMessage or errorPattern supported at the same time"

/-- Validate of the source: reject a validator with both parameters set
with a configuration-error diagnostic, validate the render error message
directly when the context carries a render error, and otherwise run the
manifest loop. -/
def FailedTemplateValidator.Validate (a : FailedTemplateValidator) (context : ValidateContext) :
    Option (Bool × List String) :=
  let manifests := context.getManifests
  if a.ErrorMessage ≠ "" ∧ a.ErrorPattern ≠ "" then
    some (false, splitInfof errorFormat (-1) (-1) [bothSetText])
  else
    match context.RenderError with
    | some err =>
      if a.ErrorPattern ≠ "" then
        a.validateErrorPattern (.str err) (-1) (-1) context
      else if a.ErrorMessage ≠ "" then
        a.validateErrorMessage (.str err) (-1) (-1) context
      else
        some (true, [])
    | none =>
      a.validateManifests manifests context

/-- Whether a raw manifest value is a string matched by the pattern; a nil
or non-string raw value matches nothing.  This is the per-manifest match
outcome the pattern check compares against the negation flag. -/
def rawMatches (p : Regex) (v : GoValue) : Bool :=
  match v with
  | .nil => false
  | .str s => p.MatchString s
  | .other => false

/-- Following the words of the spec claim: some manifest of the collection
has a raw value matched by the pattern. -/
def anyManifestMatches (p : Regex) (manifests : List K8sManifest) : Bool :=
  manifests.any fun m => rawMatches p m.raw

def patA : String := "a"

def strB : String := "b"

def strX : String := "x"

def strY : String := "y"

/-- The compiled form of the pattern patA. -/
def regexA : Regex := .concat (.char 'a') .eps

def patBad : String := "bad.*"

def msgBad : String := "template: bad indentation"

/-- The compiled form of the pattern patBad. -/
def regexBad : Regex :=
  .concat (.char 'b') (.concat (.char 'a') (.concat (.char 'd') (.concat (.star .any) .eps)))

def patStar : String := "*"

/-- A pattern-only validator instance used by concrete evaluations. -/
def vPat : FailedTemplateValidator := { ErrorMessage := "", ErrorPattern := patA }

/-- A validator instance with both parameters set. -/
def vBoth : FailedTemplateValidator := { ErrorMessage := strX, ErrorPattern := strY }

def cexCtxC1 : ValidateContext :=
  { manifests := [{ raw := .str patA }, { raw := .str strB }],
    Negative := false, FailFast := false, Strict := false, RenderError := none }

def witCtxC1 : ValidateContext :=
  { manifests := [{ raw := .str patA }],
    Negative := false, FailFast := false, Strict := false, RenderError := none }

def witCtxC2 : ValidateContext :=
  { manifests := [], Negative := true, FailFast := true, Strict := true,
    RenderError := some msgBad }

def cexCtxC3 : ValidateContext :=
  { manifests := [], Negative := false, FailFast := false, Strict := false,
    RenderError := some msgBad }

def cexCtxC4 : ValidateContext :=
  { manifests := [], Negative := true, FailFast := false, Strict := false,
    RenderError := none }

def witCtxC4 : ValidateContext :=
  { manifests := [], Negative := false, FailFast := false, Strict := false,
    RenderError := none }

def witCtxC7 : ValidateContext :=
  { manifests := [], Negative := false, FailFast := false, Strict := false,
    RenderError := none }

def witCtxC8 : ValidateContext :=
  { manifests := [{ raw := .nil }, { raw := .str strB }],
    Negative := false, FailFast := false, Strict := false, RenderError := none }

def cexCtxC9 : ValidateContext :=
  { manifests := [], Negative := true, FailFast := false, Strict := false,
    RenderError := none }

def witCtxC9 : ValidateContext :=
  { manifests := [], Negative := false, FailFast := false, Strict := false,
    RenderError := none }

def witCtxC10a : ValidateContext :=
  { manifests := [], Negative := true, FailFast := false, Strict := false,
    RenderError := some msgBad }

def witCtxC10b : ValidateContext :=
  { manifests := [{ raw := .other }, { raw := .nil }], Negative := true,
    FailFast := true, Strict := true, RenderError := some msgBad }

/-- The validator instance with the invalid pattern patStar. -/
def vStar : FailedTemplateValidator := { ErrorMessage := "", ErrorPattern := patStar }

lemma goNilAndMatch_some (p : Regex) (v : GoValue) (hv : v ≠ .other) :
    goNilAndMatch v p = some (rawMatches p v) := by
  cases v with
  | nil => rfl
  | str s => rfl
  | other => exact absurd rfl hv

lemma validateErrorPattern_ok_eq (a : FailedTemplateValidator) (p : Regex)
    (hc : RegexCompile a.ErrorPattern = .ok p) (v : GoValue) (mi ai : Int)
    (ctx : ValidateContext) (hv : v ≠ .other) :
    a.validateErrorPattern v mi ai ctx =
      if rawMatches p v = ctx.Negative then
        some (false, a.failInfo v mi ai ctx.Negative)
      else
        some (true, []) := by
  unfold FailedTemplateValidator.validateErrorPattern
  rw [hc]
  dsimp only
  rw [goNilAndMatch_some p v hv]

lemma bool_bne_true (x : Bool) : (x != true) = !x := by cases x <;> rfl

lemma bool_bne_false (x : Bool) : (x != false) = x := by cases x <;> rfl

lemma all_not_eq_not_any (l : List K8sManifest) (f : K8sManifest → Bool) :
    (l.all fun x => !(f x)) = !(l.any f) := by
  induction l with
  | nil => rfl
  | cons a l ih => simp [List.all_cons, List.any_cons, ih]

lemma loop_zero_skip (ctx : ValidateContext) (hneg : ctx.Negative = false) :
    ∀ (ms : List K8sManifest) (idx : Nat) (s : Bool) (errs : List String),
      validateManifestsLoop FailedTemplateValidator.zero ctx idx ms s errs = some (s, errs) := by
  intro ms
  induction ms with
  | nil => intro idx s errs; rfl
  | cons m rest ih =>
    intro idx s errs
    unfold validateManifestsLoop
    rw [if_pos ⟨rfl, hneg⟩]
    exact ih (idx + 1) s errs

lemma loop_false_fst (a : FailedTemplateValidator) (ctx : ValidateContext) :
    ∀ (ms : List K8sManifest) (idx : Nat) (errs : List String) (r : Bool × List String),
      validateManifestsLoop a ctx idx ms false errs = some r → r.1 = false := by
  intro ms
  induction ms with
  | nil =>
    intro idx errs r h
    cases h
    rfl
  | cons m rest ih =>
    intro idx errs r h
    unfold validateManifestsLoop at h
    by_cases hskip : a = FailedTemplateValidator.zero ∧ ctx.Negative = false
    · rw [if_pos hskip] at h
      exact ih _ _ _ h
    · rw [if_neg hskip] at h
      rcases hstep : (if a.ErrorPattern ≠ "" then
          a.validateErrorPattern m.raw (Int.ofNat idx) (-1) ctx
        else if a.ErrorMessage ≠ "" then
          a.validateErrorMessage m.raw (Int.ofNat idx) (-1) ctx
        else
          some (true, [])) with _ | ⟨cur, serrs⟩
      · rw [hstep] at h
        cases h
      · rw [hstep] at h
        dsimp only at h
        simp only [determineSuccess, Bool.false_and] at h
        by_cases hff : ctx.FailFast = true
        · rw [if_pos ⟨by trivial, hff⟩] at h
          cases h
          rfl
        · rw [if_neg fun hand => hff hand.2] at h
          exact ih _ _ _ h

lemma bne_eq_true_of_ne {x y : Bool} (h : x ≠ y) : (x != y) = true := by
  cases x <;> cases y <;> simp_all

lemma loop_pattern_fst (pat : String) (p : Regex) (hp : pat ≠ "")
    (hc : RegexCompile pat = .ok p) (ctx : ValidateContext) :
    ∀ (ms : List K8sManifest) (idx : Nat) (s : Bool) (errs : List String),
      (∀ m ∈ ms, m.raw ≠ .other) →
      (validateManifestsLoop ⟨"", pat⟩ ctx idx ms s errs).map Prod.fst =
        some (s && ms.all fun m => rawMatches p m.raw != ctx.Negative) := by
  intro ms
  induction ms with
  | nil =>
    intro idx s errs _
    simp [validateManifestsLoop]
  | cons m rest ih =>
    intro idx s errs hm
    have hmo : m.raw ≠ .other := hm m (List.mem_cons_self m rest)
    have hrest : ∀ x ∈ rest, x.raw ≠ .other := fun x hx => hm x (List.mem_cons_of_mem m hx)
    unfold validateManifestsLoop
    have hnz : ¬((⟨"", pat⟩ : FailedTemplateValidator) = FailedTemplateValidator.zero ∧
        ctx.Negative = false) := by
      intro hand
      exact hp (congrArg FailedTemplateValidator.ErrorPattern hand.1)
    rw [if_neg hnz]
    have hpe : (⟨"", pat⟩ : FailedTemplateValidator).ErrorPattern ≠ "" := hp
    rw [if_pos hpe]
    rw [validateErrorPattern_ok_eq ⟨"", pat⟩ p hc m.raw (Int.ofNat idx) (-1) ctx hmo]
    by_cases hb : rawMatches p m.raw = ctx.Negative
    · rw [if_pos hb]
      dsimp only
      simp only [determineSuccess, Bool.and_false]
      by_cases hff : ctx.FailFast = true
      · rw [if_pos ⟨by trivial, hff⟩]
        simp [List.all_cons, hb]
      · rw [if_neg fun hand => hff hand.2]
        rw [ih (idx + 1) false (errs ++ (⟨"", pat⟩ : FailedTemplateValidator).failInfo m.raw (Int.ofNat idx) (-1) ctx.Negative) hrest]
        simp [List.all_cons, hb]
    · rw [if_neg hb]
      dsimp only
      simp only [determineSuccess, Bool.and_true]
      by_cases hsf : s = false ∧ ctx.FailFast = true
      · rw [if_pos hsf]
        simp [List.all_cons, hsf.1]
      · rw [if_neg hsf]
        rw [ih (idx + 1) s (errs ++ []) hrest]
        simp [List.all_cons, bne_eq_true_of_ne hb]

lemma validateErrorPattern_congr (a : FailedTemplateValidator) (v : GoValue) (mi ai : Int)
    (ctx1 ctx2 : ValidateContext) (h : ctx1.Negative = ctx2.Negative) :
    a.validateErrorPattern v mi ai ctx1 = a.validateErrorPattern v mi ai ctx2 := by
  unfold FailedTemplateValidator.validateErrorPattern
  rw [h]

lemma validateErrorMessage_congr (a : FailedTemplateValidator) (v : GoValue) (mi ai : Int)
    (ctx1 ctx2 : ValidateContext) (h : ctx1.Negative = ctx2.Negative) :
    a.validateErrorMessage v mi ai ctx1 = a.validateErrorMessage v mi ai ctx2 := by
  unfold FailedTemplateValidator.validateErrorMessage
  rw [h]

lemma validateManifests_pattern_fst (pat : String) (p : Regex) (hp : pat ≠ "")
    (hc : RegexCompile pat = .ok p) (ctx : ValidateContext) (ms : List K8sManifest)
    (hm : ∀ m ∈ ms, m.raw ≠ .other) :
    ((FailedTemplateValidator.mk "" pat).validateManifests ms ctx).map Prod.fst =
      some (if ctx.Negative = true then !(ms.any fun m => rawMatches p m.raw)
            else !ms.isEmpty && (ms.all fun m => rawMatches p m.raw)) := by
  have hl := loop_pattern_fst pat p hp hc ctx ms 0 true [] hm
  unfold FailedTemplateValidator.validateManifests
  rcases hval : validateManifestsLoop ⟨"", pat⟩ ctx 0 ms true [] with _ | ⟨s0, e0⟩
  · rw [hval] at hl
    simp at hl
  · rw [hval] at hl
    simp only [Option.map_some', Option.some.injEq, Bool.true_and] at hl
    dsimp only
    by_cases hneg : ctx.Negative = true
    · have hcond : ¬(ms.length = 0 ∧ ctx.Negative = false) := by
        intro hand
        rw [hneg] at hand
        exact absurd hand.2 (by simp)
      rw [if_neg hcond, if_pos hneg]
      simp only [Option.map_some', Option.some.injEq]
      rw [hl]
      simp only [hneg, bool_bne_true]
      rw [all_not_eq_not_any ms (fun m => rawMatches p m.raw)]
    · have hnegf : ctx.Negative = false := by
        cases hx : ctx.Negative
        · rfl
        · exact absurd hx hneg
      rw [if_neg hneg]
      cases ms with
      | nil =>
        rw [if_pos ⟨rfl, hnegf⟩]
        simp
      | cons m rest =>
        have hcond : ¬((m :: rest).length = 0 ∧ ctx.Negative = false) := by
          intro hand
          exact absurd hand.1 (by simp)
        rw [if_neg hcond]
        simp only [Option.map_some', Option.some.injEq]
        rw [hl]
        simp only [hnegf, bool_bne_false]
        simp

/-- C2: for every context, a validator with both errorMessage and
errorPattern non-empty fails with the configuration-error diagnostic; the
result is a constant, so neither the manifests nor the render error of the
context are consulted. -/
theorem C2_both_set_config_error (a : FailedTemplateValidator) (ctx : ValidateContext)
    (hm : a.ErrorMessage ≠ "") (hp : a.ErrorPattern ≠ "") :
    a.Validate ctx = some (false, splitInfof errorFormat (-1) (-1) [bothSetText]) := by
  unfold FailedTemplateValidator.Validate
  dsimp only
  rw [if_pos ⟨hm, hp⟩]

theorem C2_witness :
    vBoth.ErrorMessage ≠ "" ∧ vBoth.ErrorPattern ≠ "" ∧
      vBoth.Validate witCtxC2 = some (false, splitInfof errorFormat (-1) (-1) [bothSetText]) :=
  ⟨by decide, by decide, C2_both_set_config_error vBoth witCtxC2 (by decide) (by decide)⟩

/-- C5: when the context carries a render error and neither parameter is
set, Validate succeeds with no diagnostics. -/
theorem C5_no_params_render_error (ctx : ValidateContext) (err : String)
    (hre : ctx.RenderError = some err) :
    FailedTemplateValidator.zero.Validate ctx = some (true, []) := by
  unfold FailedTemplateValidator.Validate
  dsimp only
  rw [if_neg fun hand => hand.1 rfl, hre]
  dsimp only
  rw [if_neg fun h => h rfl, if_neg fun h => h rfl]

theorem C5_witness :
    cexCtxC3.RenderError = some msgBad ∧
      FailedTemplateValidator.zero.Validate cexCtxC3 = some (true, []) :=
  ⟨rfl, C5_no_params_render_error cexCtxC3 msgBad rfl⟩

/-- C6: an errorPattern that does not compile makes validateErrorPattern
return a failure carrying a diagnostic built from the compile error
message, for every actual value, every pair of indices and every context;
in particular the result is some, never a panic. -/
theorem C6_invalid_pattern_diagnostic (a : FailedTemplateValidator) (e : String)
    (hc : RegexCompile a.ErrorPattern = .error e) (actual : GoValue) (mi ai : Int)
    (ctx : ValidateContext) :
    a.validateErrorPattern actual mi ai ctx =
      some (false, splitInfof errorFormat (-1) (-1) [e]) := by
  unfold FailedTemplateValidator.validateErrorPattern
  rw [hc]

theorem C6_witness :
    RegexCompile vStar.ErrorPattern = .error errMissingRepArg ∧
      vStar.validateErrorPattern .other 3 (-1) witCtxC2 =
        some (false, splitInfof errorFormat (-1) (-1) [errMissingRepArg]) :=
  ⟨rfl, C6_invalid_pattern_diagnostic vStar errMissingRepArg rfl .other 3 (-1) witCtxC2⟩

/-- C8: the zero validator in a non-negated context with no render error
and a non-empty manifest collection skips every manifest and succeeds with
no diagnostics. -/
theorem C8_zero_validator_skips (ctx : ValidateContext) (hneg : ctx.Negative = false)
    (hre : ctx.RenderError = none) (hne : ctx.manifests ≠ []) :
    FailedTemplateValidator.zero.Validate ctx = some (true, []) := by
  unfold FailedTemplateValidator.Validate
  dsimp only
  rw [if_neg fun hand => hand.1 rfl, hre]
  dsimp only [ValidateContext.getManifests]
  unfold FailedTemplateValidator.validateManifests
  rw [loop_zero_skip ctx hneg ctx.manifests 0 true []]
  dsimp only
  rw [if_neg fun hand => hne (List.length_eq_zero.mp hand.1)]

theorem C8_witness :
    witCtxC8.Negative = false ∧ witCtxC8.RenderError = none ∧ witCtxC8.manifests ≠ [] ∧
      FailedTemplateValidator.zero.Validate witCtxC8 = some (true, []) :=
  ⟨rfl, rfl, by decide, C8_zero_validator_skips witCtxC8 rfl rfl (by decide)⟩

/-- C10: with a render error present, Validate is a function of the two
parameter fields, the error message and the negation flag alone: two
contexts agreeing on the render error message and the negation flag give
identical results, whatever their manifest collections and other flags. -/
theorem C10_render_error_noninterference (a : FailedTemplateValidator)
    (ctx1 ctx2 : ValidateContext) (msg : String)
    (h1 : ctx1.RenderError = some msg) (h2 : ctx2.RenderError = some msg)
    (hneg : ctx1.Negative = ctx2.Negative) :
    a.Validate ctx1 = a.Validate ctx2 := by
  unfold FailedTemplateValidator.Validate
  dsimp only
  by_cases hboth : a.ErrorMessage ≠ "" ∧ a.ErrorPattern ≠ ""
  · rw [if_pos hboth, if_pos hboth]
  · rw [if_neg hboth, if_neg hboth, h1, h2]
    dsimp only
    by_cases hpat : a.ErrorPattern ≠ ""
    · rw [if_pos hpat, if_pos hpat]
      exact validateErrorPattern_congr a (.str msg) (-1) (-1) ctx1 ctx2 hneg
    · rw [if_neg hpat, if_neg hpat]
      by_cases hmsg : a.ErrorMessage ≠ ""
      · rw [if_pos hmsg, if_pos hmsg]
        exact validateErrorMessage_congr a (.str msg) (-1) (-1) ctx1 ctx2 hneg
      · rw [if_neg hmsg, if_neg hmsg]

theorem C10_witness :
    witCtxC10a.RenderError = some msgBad ∧ witCtxC10b.RenderError = some msgBad ∧
      witCtxC10a.Negative = witCtxC10b.Negative ∧ witCtxC10a.manifests ≠ witCtxC10b.manifests ∧
      vPat.Validate witCtxC10a = vPat.Validate witCtxC10b :=
  ⟨rfl, rfl, rfl, by decide,
    C10_render_error_noninterference vPat witCtxC10a witCtxC10b msgBad rfl rfl rfl⟩

/-- C1 counterexample: two manifests, one matching and one not, in a
non-negated context.  The claimed formula negative == !anyManifestMatches
evaluates to true, predicting a pass, but Validate fails, because the code
requires every manifest to match when the context is not negated. -/
theorem C1_counterexample :
    RegexCompile patA = .ok regexA ∧
      (cexCtxC1.Negative == !anyManifestMatches regexA cexCtxC1.manifests) = true ∧
      ((FailedTemplateValidator.mk "" patA).Validate cexCtxC1).map Prod.fst = some false :=
  ⟨rfl, rfl, rfl⟩

/-- C1 amended: for a pattern-only validator with a compilable pattern, on
a context with no render error whose manifests carry no non-string raw
value, the assertion passes iff no manifest matches when the context is
negated, and iff the collection is non-empty and every manifest matches
when it is not. -/
theorem C1_amended (pat : String) (p : Regex) (hp : pat ≠ "")
    (hc : RegexCompile pat = .ok p) (ctx : ValidateContext)
    (hre : ctx.RenderError = none) (hm : ∀ m ∈ ctx.manifests, m.raw ≠ .other) :
    ((FailedTemplateValidator.mk "" pat).Validate ctx).map Prod.fst =
      some (if ctx.Negative = true then !anyManifestMatches p ctx.manifests
            else !ctx.manifests.isEmpty && (ctx.manifests.all fun m => rawMatches p m.raw)) := by
  unfold FailedTemplateValidator.Validate
  dsimp only
  rw [if_neg fun hand => hand.1 rfl, hre]
  dsimp only [ValidateContext.getManifests]
  exact validateManifests_pattern_fst pat p hp hc ctx ctx.manifests hm

theorem C1_amended_witness :
    ((FailedTemplateValidator.mk "" patA).Validate witCtxC1).map Prod.fst =
      some (if witCtxC1.Negative = true then !anyManifestMatches regexA witCtxC1.manifests
            else !witCtxC1.manifests.isEmpty &&
              (witCtxC1.manifests.all fun m => rawMatches regexA m.raw)) :=
  C1_amended patA regexA (by decide) rfl witCtxC1 rfl (by decide)

/-- C3 counterexample: the render error message does not full-match the
pattern, so under the claimed anchored semantics the non-negated assertion
would fail, but Validate passes: the code searches for a match anywhere in
the message. -/
theorem C3_counterexample :
    RegexCompile patBad = .ok regexBad ∧
      matchFull regexBad msgBad.data = false ∧
      cexCtxC3.Negative = false ∧
      (FailedTemplateValidator.mk "" patBad).Validate cexCtxC3 = some (true, []) :=
  ⟨rfl, rfl, rfl, rfl⟩

/-- C3 amended: with a render error present and a compilable pattern-only
validator, the error message is validated with unanchored search semantics
of MatchString, negation applied at the comparison. -/
theorem C3_amended (pat : String) (p : Regex) (msg : String) (ctx : ValidateContext)
    (hp : pat ≠ "") (hc : RegexCompile pat = .ok p) (hre : ctx.RenderError = some msg) :
    (FailedTemplateValidator.mk "" pat).Validate ctx =
      if p.MatchString msg = ctx.Negative then
        some (false, (FailedTemplateValidator.mk "" pat).failInfo (.str msg) (-1) (-1) ctx.Negative)
      else
        some (true, []) := by
  unfold FailedTemplateValidator.Validate
  dsimp only
  rw [if_neg fun hand => hand.1 rfl, hre]
  dsimp only
  rw [if_pos (hp : (FailedTemplateValidator.mk "" pat).ErrorPattern ≠ "")]
  rw [validateErrorPattern_ok_eq (FailedTemplateValidator.mk "" pat) p hc (.str msg) (-1) (-1) ctx
    (by simp : (GoValue.str msg) ≠ GoValue.other)]
  rfl

theorem C3_amended_witness :
    (FailedTemplateValidator.mk "" patBad).Validate cexCtxC3 =
      if regexBad.MatchString msgBad = cexCtxC3.Negative then
        some (false,
          (FailedTemplateValidator.mk "" patBad).failInfo (.str msgBad) (-1) (-1) cexCtxC3.Negative)
      else
        some (true, []) :=
  C3_amended patBad regexBad msgBad cexCtxC3 (by decide) rfl rfl

/-- C4 counterexample: a validator with both parameters set, evaluated on
a negated context with no render error and no manifests, fails with the
configuration-error diagnostic, while the claim predicts success with no
diagnostics for every validator on such a context. -/
theorem C4_counterexample :
    cexCtxC4.Negative = true ∧ cexCtxC4.RenderError = none ∧ cexCtxC4.manifests = [] ∧
      vBoth.Validate cexCtxC4 =
        some (false, splitInfof errorFormat (-1) (-1) [bothSetText]) :=
  ⟨rfl, rfl, rfl, rfl⟩

/-- C4 amended: for every validator that does not have both parameters set
at once, on a context with no render error and an empty manifest
collection, a non-negated evaluation fails with the fixed no-failed-
document diagnostic and a negated evaluation succeeds with no
diagnostics. -/
theorem C4_amended (a : FailedTemplateValidator) (ctx : ValidateContext)
    (hone : a.ErrorMessage = "" ∨ a.ErrorPattern = "")
    (hre : ctx.RenderError = none) (hms : ctx.manifests = []) :
    a.Validate ctx =
      if ctx.Negative = true then some (true, [])
      else some (false, a.failInfo (.str noFailedDocText) (-1) (-1) ctx.Negative) := by
  unfold FailedTemplateValidator.Validate
  dsimp only [ValidateContext.getManifests]
  have hnboth : ¬(a.ErrorMessage ≠ "" ∧ a.ErrorPattern ≠ "") := by
    rcases hone with h | h
    · exact fun hand => hand.1 h
    · exact fun hand => hand.2 h
  rw [if_neg hnboth, hre]
  dsimp only
  rw [hms]
  unfold FailedTemplateValidator.validateManifests
  dsimp only [validateManifestsLoop]
  by_cases hneg : ctx.Negative = true
  · rw [if_neg fun hand => by rw [hneg] at hand; exact absurd hand.2 (by simp), if_pos hneg]
  · have hnegf : ctx.Negative = false := by
      cases hx : ctx.Negative
      · rfl
      · exact absurd hx hneg
    rw [if_pos ⟨rfl, hnegf⟩, if_neg hneg]
    simp

theorem C4_amended_witness :
    (vPat.ErrorMessage = "" ∨ vPat.ErrorPattern = "") ∧
      vPat.Validate witCtxC4 =
        (if witCtxC4.Negative = true then some (true, [])
         else some (false, vPat.failInfo (.str noFailedDocText) (-1) (-1) witCtxC4.Negative)) :=
  ⟨Or.inl rfl, C4_amended vPat witCtxC4 (Or.inl rfl) rfl rfl⟩

/-- C7: in the manifest loop of a pattern-only validator with a compilable
pattern, a manifest whose check fails contributes the diagnostic built
with that manifest's index; without fail-fast the loop continues on the
remaining manifests with the success flag false, with fail-fast it stops
at once with that failure; and a false success flag is never restored by
later manifests. -/
theorem C7_failure_diagnostic_and_aggregation (pat : String) (p : Regex) (hp : pat ≠ "")
    (hc : RegexCompile pat = .ok p) (ctx : ValidateContext) (m : K8sManifest)
    (rest : List K8sManifest) (idx : Nat) (s : Bool) (errs : List String)
    (hmo : m.raw ≠ .other) (hfail : rawMatches p m.raw = ctx.Negative) :
    (ctx.FailFast = false →
      validateManifestsLoop ⟨"", pat⟩ ctx idx (m :: rest) s errs =
        validateManifestsLoop ⟨"", pat⟩ ctx (idx + 1) rest false
          (errs ++ (FailedTemplateValidator.mk "" pat).failInfo m.raw (Int.ofNat idx) (-1)
            ctx.Negative))
    ∧ (ctx.FailFast = true →
      validateManifestsLoop ⟨"", pat⟩ ctx idx (m :: rest) s errs =
        some (false,
          errs ++ (FailedTemplateValidator.mk "" pat).failInfo m.raw (Int.ofNat idx) (-1)
            ctx.Negative))
    ∧ (∀ (ms : List K8sManifest) (idx2 : Nat) (errs2 : List String) (r : Bool × List String),
        validateManifestsLoop ⟨"", pat⟩ ctx idx2 ms false errs2 = some r → r.1 = false) := by
  have hmain : validateManifestsLoop ⟨"", pat⟩ ctx idx (m :: rest) s errs =
      if ctx.FailFast = true then
        some (false,
          errs ++ (FailedTemplateValidator.mk "" pat).failInfo m.raw (Int.ofNat idx) (-1)
            ctx.Negative)
      else
        validateManifestsLoop ⟨"", pat⟩ ctx (idx + 1) rest false
          (errs ++ (FailedTemplateValidator.mk "" pat).failInfo m.raw (Int.ofNat idx) (-1)
            ctx.Negative) := by
    conv_lhs => unfold validateManifestsLoop
    rw [if_neg (fun hand => hp (congrArg FailedTemplateValidator.ErrorPattern hand.1))]
    rw [if_pos (hp : (FailedTemplateValidator.mk "" pat).ErrorPattern ≠ "")]
    rw [validateErrorPattern_ok_eq (FailedTemplateValidator.mk "" pat) p hc m.raw
      (Int.ofNat idx) (-1) ctx hmo]
    rw [if_pos hfail]
    dsimp only
    simp only [determineSuccess, Bool.and_false]
    by_cases hff : ctx.FailFast = true
    · rw [if_pos ⟨by trivial, hff⟩, if_pos hff]
    · rw [if_neg fun hand => hff hand.2, if_neg hff]
  refine ⟨fun hff => ?_, fun hff => ?_, loop_false_fst ⟨"", pat⟩ ctx⟩
  · rw [hmain, if_neg (fun h => by rw [hff] at h; exact Bool.noConfusion h)]
  · rw [hmain, if_pos hff]

theorem C7_witness :
    rawMatches regexA (GoValue.str strB) = witCtxC7.Negative ∧ witCtxC7.FailFast = false ∧
      validateManifestsLoop ⟨"", patA⟩ witCtxC7 0
          (⟨.str strB⟩ :: [⟨.str patA⟩]) true [] =
        validateManifestsLoop ⟨"", patA⟩ witCtxC7 1 [⟨.str patA⟩] false
          ([] ++ (FailedTemplateValidator.mk "" patA).failInfo (.str strB) (Int.ofNat 0) (-1)
            witCtxC7.Negative) :=
  ⟨by decide, rfl,
    (C7_failure_diagnostic_and_aggregation patA regexA (by decide) rfl witCtxC7 ⟨.str strB⟩
      [⟨.str patA⟩] 0 true [] (by decide) (by decide)).1 rfl⟩

/-- C9 counterexample: validateErrorPattern with an uncompilable pattern
and a nil actual value in a negated context returns the compile-error
failure, while the claim predicts success whenever the context is
negated. -/
theorem C9_counterexample :
    cexCtxC9.Negative = true ∧
      vStar.validateErrorPattern .nil 0 (-1) cexCtxC9 =
        some (false, splitInfof errorFormat (-1) (-1) [errMissingRepArg]) :=
  ⟨rfl, rfl⟩

/-- C9 amended: with a nil actual value neither check panics, the nil test
short-circuits before the string type assertion; validateErrorMessage, and
validateErrorPattern whenever its pattern compiles, fail with a diagnostic
in a non-negated context and succeed in a negated one, while an
uncompilable pattern keeps the compile-error failure whatever the
negation. -/
theorem C9_amended (a : FailedTemplateValidator) (mi ai : Int) (ctx : ValidateContext) :
    a.validateErrorPattern .nil mi ai ctx ≠ none ∧
      a.validateErrorMessage .nil mi ai ctx =
        some (if ctx.Negative = true then (true, [])
              else (false, a.failInfo .nil mi ai ctx.Negative)) ∧
      ∀ p : Regex, RegexCompile a.ErrorPattern = .ok p →
        a.validateErrorPattern .nil mi ai ctx =
          some (if ctx.Negative = true then (true, [])
                else (false, a.failInfo .nil mi ai ctx.Negative)) := by
  refine ⟨?_, ?_, ?_⟩
  · unfold FailedTemplateValidator.validateErrorPattern
    rcases hc : RegexCompile a.ErrorPattern with e | q
    · simp
    · dsimp only [goNilAndMatch]
      cases hneg : ctx.Negative <;> simp
  · unfold FailedTemplateValidator.validateErrorMessage
    dsimp only [goNilAndEq]
    cases hneg : ctx.Negative <;> simp
  · intro p hc
    unfold FailedTemplateValidator.validateErrorPattern
    rw [hc]
    dsimp only [goNilAndMatch]
    cases hneg : ctx.Negative <;> simp

theorem C9_amended_witness :
    vPat.validateErrorPattern .nil 2 (-1) witCtxC9 ≠ none ∧
      vPat.validateErrorMessage .nil 2 (-1) witCtxC9 =
        some (if witCtxC9.Negative = true then (true, [])
              else (false, vPat.failInfo .nil 2 (-1) witCtxC9.Negative)) ∧
      vPat.validateErrorPattern .nil 2 (-1) witCtxC9 =
        some (if witCtxC9.Negative = true then (true, [])
              else (false, vPat.failInfo .nil 2 (-1) witCtxC9.Negative)) :=
  ⟨(C9_amended vPat 2 (-1) witCtxC9).1, (C9_amended vPat 2 (-1) witCtxC9).2.1,
    (C9_amended vPat 2 (-1) witCtxC9).2.2 regexA rfl⟩
